import Mathlib

/-!
Verification of the BELL "add event" Lambda handler (src/index.js).

The handler accepts a POST with `eventName`, `eventDate`, `eventTime`,
persists the event in DynamoDB, directly invokes the reminder Lambda for
the `Immediate` reminder, and registers one-shot EventBridge schedules for
the `OneWeek`, `ThreeDays` and `OneDay` offsets, filtering out candidate
fire instants that are not strictly between "now" and the event instant.

The embedding models JavaScript numbers produced by `Date` arithmetic as
either an integer count of milliseconds or `NaN`, external calls as an
explicit effect trace, and throw/catch as an explicit "threw" flag.
-/

namespace BELLAddEvent

/-- A JavaScript number as produced by the date arithmetic in the source:
either an integer number of milliseconds since the epoch, or `NaN`
(the result of `new Date(malformed).getTime()`). -/
inductive JSNum where
  | num : Int → JSNum
  | nan : JSNum
deriving DecidableEq, Repr

/-- Number of days in a month of the proleptic Gregorian calendar, as
accepted by the JavaScript date-time string format. -/
def daysInMonth (y : Int) (m : Nat) : Nat :=
  if m = 2 then
    if (y % 4 = 0 ∧ y % 100 ≠ 0) ∨ y % 400 = 0 then 29 else 28
  else if m = 4 ∨ m = 6 ∨ m = 9 ∨ m = 11 then 30 else 31

/-- Numeric value of a digit character. -/
def digitVal (c : Char) : Nat := c.toNat - 48

/-- Parse a `YYYY-MM-DD` date string as JavaScript `Date` parsing does for
the ISO date form: four digit year, two digit month in 1..12, two digit
day valid for that month; anything else yields an invalid date. -/
def parseDate? (s : String) : Option (Int × Nat × Nat) :=
  match s.data with
  | [y1, y2, y3, y4, s1, m1, m2, s2, d1, d2] =>
    if (s1 = '-' ∧ s2 = '-') ∧
        (y1.isDigit ∧ y2.isDigit ∧ y3.isDigit ∧ y4.isDigit) ∧
        (m1.isDigit ∧ m2.isDigit) ∧ (d1.isDigit ∧ d2.isDigit) then
      let y : Nat := digitVal y1 * 1000 + digitVal y2 * 100 +
        digitVal y3 * 10 + digitVal y4
      let m : Nat := digitVal m1 * 10 + digitVal m2
      let d : Nat := digitVal d1 * 10 + digitVal d2
      if 1 ≤ m ∧ m ≤ 12 ∧ 1 ≤ d ∧ d ≤ daysInMonth y m then
        some ((y : Int), m, d)
      else none
    else none
  | _ => none

/-- Parse an `HH:MM` time string: two digit hour in 0..23, two digit
minute in 0..59; anything else yields an invalid date. -/
def parseTime? (s : String) : Option (Nat × Nat) :=
  match s.data with
  | [a1, a2, s1, b1, b2] =>
    if (s1 = ':') ∧ (a1.isDigit ∧ a2.isDigit) ∧ (b1.isDigit ∧ b2.isDigit)
        then
      let h : Nat := digitVal a1 * 10 + digitVal a2
      let m : Nat := digitVal b1 * 10 + digitVal b2
      if h ≤ 23 ∧ m ≤ 59 then some (h, m) else none
    else none
  | _ => none

/-- Days since 1970-01-01 of a Gregorian calendar date (Hinnant's
`days_from_civil` algorithm, also what ECMAScript `MakeDay` computes). -/
def daysFromCivil (y : Int) (m d : Nat) : Int :=
  let y' : Int := if m ≤ 2 then y - 1 else y
  let era : Int := (if 0 ≤ y' then y' else y' - 399) / 400
  let yoe : Int := y' - era * 400
  let mp : Nat := (m + 9) % 12
  let doy : Nat := (153 * mp + 2) / 5 + d - 1
  let doe : Int := yoe * 365 + yoe / 4 - yoe / 100 + (doy : Int)
  era * 146097 + doe - 719468

/-- Gregorian calendar date of a count of days since 1970-01-01
(Hinnant's `civil_from_days` algorithm): `(year, month, day)`. -/
def civilFromDays (z : Int) : Int × Nat × Nat :=
  let z' : Int := z + 719468
  let era : Int := (if 0 ≤ z' then z' else z' - 146096) / 146097
  let doe : Nat := (z' - era * 146097).toNat
  let yoe : Nat := (doe - doe / 1460 + doe / 36524 - doe / 146096) / 365
  let y : Int := (yoe : Int) + era * 400
  let doy : Nat := doe - (365 * yoe + yoe / 4 - yoe / 100)
  let mp : Nat := (5 * doy + 2) / 153
  let d : Nat := doy - (153 * mp + 2) / 5 + 1
  let m : Nat := if mp < 10 then mp + 3 else mp - 9
  (if m ≤ 2 then y + 1 else y, m, d)

/-- The host environment of a single request: the timezone offset the
JavaScript engine applies when parsing a local (un-suffixed) date-time
string, the clock reading `new Date().getTime()` during the request, the
two environment variables, the generated `uuid.v4()` identifier, and
fault switches describing which external calls reject. -/
structure World where
  tzOffsetMs : Int
  nowMs : Int
  reminderLambdaArn : Option String
  schedulerRoleArn : Option String
  freshId : String
  putFails : Bool
  invokeFails : Bool
  schedFails : String → Bool

/-- `new Date(eventDate + "T" + eventTime + ":00").getTime()` — local-time
parsing of the combined date-time string: the calendar fields read as UTC,
shifted by the host timezone offset; malformed input gives `NaN`. -/
def dateFromString (w : World) (eventDate eventTime : String) : JSNum :=
  match parseDate? eventDate, parseTime? eventTime with
  | some (y, mo, da), some (hh, mi) =>
    .num (daysFromCivil y mo da * 86400000 + (hh : Int) * 3600000 +
      (mi : Int) * 60000 - w.tzOffsetMs)
  | _, _ => .nan

/-- `convertToUTCTimestamp(eventDate, eventTime, daysBefore)`
(src/index.js lines 189-196): parse the local date-time, subtract
`daysBefore * 24 * 60 * 60 * 1000` milliseconds, then log
`utcDateTime.toISOString()` at line 193 — a call that THROWS a
`RangeError` when the parsed date is invalid (its time value is `NaN`).
`.error ()` models that throw; `.ok` the returned millisecond
timestamp, which is therefore always a real number. -/
def convertToUTCTimestamp (w : World) (eventDate eventTime : String)
    (daysBefore : Int) : Except Unit Int :=
  match dateFromString w eventDate eventTime with
  | .nan => .error ()
  | .num p => .ok (p - daysBefore * 86400000)

/-- `getUTCMinutes` of a millisecond timestamp (ECMAScript `MinFromTime`,
floor division since `/` on `Int` is Euclidean and the divisor positive). -/
def getUTCMinutes (t : Int) : Int := (t / 60000) % 60

/-- `getUTCHours` of a millisecond timestamp (ECMAScript `HourFromTime`). -/
def getUTCHours (t : Int) : Int := (t / 3600000) % 24

/-- `getUTCDate` (day of month) of a millisecond timestamp. -/
def getUTCDate (t : Int) : Nat := (civilFromDays (t / 86400000)).2.2

/-- `getUTCMonth() + 1` (month 1..12) of a millisecond timestamp. -/
def getUTCMonthPlusOne (t : Int) : Nat := (civilFromDays (t / 86400000)).2.1

/-- `getUTCFullYear` of a millisecond timestamp. -/
def getUTCFullYear (t : Int) : Int := (civilFromDays (t / 86400000)).1

/-- The cron expression built at src/index.js line 160:
`cron(M H D Mo ? Y)` from the UTC fields of the timestamp. Only real
timestamps reach this point: an invalid date has already thrown inside
`convertToUTCTimestamp`. -/
def cronExpression (t : Int) : String :=
  "cron(" ++ toString (getUTCMinutes t) ++ " " ++ toString (getUTCHours t)
    ++ " " ++ toString (getUTCDate t) ++ " " ++ toString (getUTCMonthPlusOne t)
    ++ " ? " ++ toString (getUTCFullYear t) ++ ")"

/-- An attempted external call, in program order. -/
inductive Effect where
  | putItem (eventID eventName eventDate eventTime : String)
  | lambdaInvoke (eventName eventDate eventTime reminderType : String)
  | createSchedule (name cronExpr : String)
      (eventName eventDate eventTime reminderType : String)
deriving DecidableEq, Repr

/-- Does the effect register a trigger with the scheduler? -/
def isCreateSchedule : Effect → Bool
  | .createSchedule .. => true
  | _ => false

/-- Does the effect write the event record to the datastore? -/
def isPutItem : Effect → Bool
  | .putItem .. => true
  | _ => false

/-- Does the effect invoke the reminder Lambda directly? -/
def isLambdaInvoke : Effect → Bool
  | .lambdaInvoke .. => true
  | _ => false

/-- `invokeImmediateReminder` (src/index.js lines 110-134): throws when
`ReminderLambdaArn` is unset; otherwise attempts the asynchronous
invocation, and on a backend rejection logs and rethrows. Returns the
attempted effects and whether the call threw. -/
def invokeImmediateReminder (w : World)
    (eventName eventDate eventTime : String) : List Effect × Bool :=
  match w.reminderLambdaArn with
  | none => ([], true)
  | some _ =>
    ([.lambdaInvoke eventName eventDate eventTime ("Immediate")], w.invokeFails)

/-- `createReminderRule` (src/index.js lines 137-186): throws when
`ReminderLambdaArn` is unset; recomputes the event instant at line 146
(whose `toISOString` log can itself throw on an invalid date); skips
(returns without effect) when the candidate timestamp is `<=` now or
`>=` the event instant; otherwise attempts `scheduler.createSchedule`
with the cron expression, rethrowing a backend rejection. -/
def createReminderRule (w : World) (eventId reminderType : String)
    (timestamp : Int) (eventName eventDate eventTime : String) :
    List Effect × Bool :=
  let ruleName := eventId ++ "-" ++ reminderType
  match w.reminderLambdaArn with
  | none => ([], true)
  | some _ =>
    match convertToUTCTimestamp w eventDate eventTime 0 with
    | .error _ => ([], true)
    | .ok eventTimestamp =>
      if timestamp ≤ w.nowMs then ([], false)
      else if eventTimestamp ≤ timestamp then ([], false)
      else
        ([.createSchedule ruleName (cronExpression timestamp)
            eventName eventDate eventTime reminderType],
          w.schedFails ruleName)

/-- The HTTP method of the request, as dispatched by the handler. -/
inductive Method where
  | OPTIONS
  | POST
  | other
deriving DecidableEq, Repr

/-- The parsed request body fields (absent field = `undefined`). -/
structure Request where
  method : Method
  eventName : Option String
  eventDate : Option String
  eventTime : Option String

/-- The response: status code, and the `eventID` carried in a success
body (`none` for every non-success body). -/
structure Response where
  statusCode : Nat
  eventID : Option String
deriving DecidableEq, Repr

/-- JavaScript falsiness of an optional string field: `undefined` or `""`. -/
def falsy : Option String → Bool
  | none => true
  | some s => s == ""

/-- `exports.handler` (src/index.js lines 7-107): OPTIONS returns 200;
POST validates the three fields (400 on a falsy one), writes the event
record, invokes the immediate reminder, then registers the `OneWeek`,
`ThreeDays`, `OneDay` rules in order. At lines 68-70 the
`convertToUTCTimestamp` argument is evaluated before each
`createReminderRule` call, so its `RangeError` on a malformed date
aborts there; any throw is caught and mapped to the 500 response.
Returns the response and the trace of attempted external calls in
program order. -/
def handler (w : World) (req : Request) : Response × List Effect :=
  match req.method with
  | .OPTIONS => (⟨200, none⟩, [])
  | .other => (⟨405, none⟩, [])
  | .POST =>
    if falsy req.eventName || falsy req.eventDate || falsy req.eventTime then
      (⟨400, none⟩, [])
    else
      let eventName := req.eventName.getD ("")
      let eventDate := req.eventDate.getD ("")
      let eventTime := req.eventTime.getD ("")
      let eventId := w.freshId
      let putEff := Effect.putItem eventId eventName eventDate eventTime
      if w.putFails then (⟨500, none⟩, [putEff])
      else
        let inv := invokeImmediateReminder w eventName eventDate eventTime
        if inv.2 then (⟨500, none⟩, putEff :: inv.1)
        else
          match convertToUTCTimestamp w eventDate eventTime 7 with
          | .error _ => (⟨500, none⟩, putEff :: inv.1)
          | .ok ts7 =>
            let r1 := createReminderRule w eventId ("OneWeek") ts7
              eventName eventDate eventTime
            if r1.2 then (⟨500, none⟩, putEff :: inv.1 ++ r1.1)
            else
              match convertToUTCTimestamp w eventDate eventTime 3 with
              | .error _ => (⟨500, none⟩, putEff :: inv.1 ++ r1.1)
              | .ok ts3 =>
                let r2 := createReminderRule w eventId ("ThreeDays") ts3
                  eventName eventDate eventTime
                if r2.2 then
                  (⟨500, none⟩, putEff :: inv.1 ++ r1.1 ++ r2.1)
                else
                  match convertToUTCTimestamp w eventDate eventTime 1 with
                  | .error _ => (⟨500, none⟩, putEff :: inv.1 ++ r1.1 ++ r2.1)
                  | .ok ts1 =>
                    let r3 := createReminderRule w eventId ("OneDay") ts1
                      eventName eventDate eventTime
                    if r3.2 then
                      (⟨500, none⟩,
                        putEff :: inv.1 ++ r1.1 ++ r2.1 ++ r3.1)
                    else
                      (⟨200, some eventId⟩,
                        putEff :: inv.1 ++ r1.1 ++ r2.1 ++ r3.1)

/-- Does the effect register a schedule carrying exactly this name? -/
def scheduleNamed (n : String) : Effect → Bool
  | .createSchedule name _ _ _ _ _ => name == n
  | _ => false

/-- A reference host: UTC timezone, clock at the epoch, both environment
variables set, generated identifier `id`, every external call succeeding. -/
def baseWorld : World :=
  ⟨0, 0, some ("arn"), some ("role"), "id", false, false, fun _ => false⟩

/-- A well-formed POST submission for 2030-06-10 09:00. -/
def reqJune : Request :=
  ⟨.POST, some ("Board Meeting"), some ("2030-06-10"), some ("09:00")⟩

/-- Like `baseWorld` but the scheduler rejects the `OneWeek` schedule. -/
def failOneWeekWorld : World :=
  { baseWorld with schedFails := fun n => n == "id-OneWeek" }

/-- Like `baseWorld` but the scheduler rejects the `ThreeDays` schedule. -/
def failThreeDaysWorld : World :=
  { baseWorld with schedFails := fun n => n == "id-ThreeDays" }

/-- Like `baseWorld` but the asynchronous Lambda invocation rejects. -/
def invokeFailWorld : World := { baseWorld with invokeFails := true }

/-- Like `baseWorld` but the DynamoDB put rejects. -/
def putFailWorld : World := { baseWorld with putFails := true }

/-- Like `baseWorld` but `ReminderLambdaArn` is unset. -/
def noArnWorld : World := { baseWorld with reminderLambdaArn := none }

/-- Like `baseWorld` but the clock reads 2030-06-09T21:00:00Z, twelve
hours before the event of `reqJune`. -/
def lateWorld : World := { baseWorld with nowMs := 1907269200000 }

/-- A POST submission whose date string has a thirteenth month, which
JavaScript `Date` parsing turns into an invalid date. -/
def reqBadDate : Request :=
  ⟨.POST, some ("Board Meeting"), some ("2030-13-01"), some ("10:00")⟩

/-- When the reminder target is configured, the event instant resolves,
and either skip condition of the validity filter holds, then
`createReminderRule` performs no external call and does not throw. -/
theorem createReminderRule_skips (w : World) (a eid rt n d t : String)
    (ts evTs : Int)
    (harn : w.reminderLambdaArn = some a)
    (hev : convertToUTCTimestamp w d t 0 = .ok evTs)
    (h : ts ≤ w.nowMs ∨ evTs ≤ ts) :
    createReminderRule w eid rt ts n d t = ([], false) := by
  by_cases h1 : ts ≤ w.nowMs
  · simp [createReminderRule, harn, hev, h1]
  · rcases h with h | h
    · exact absurd h h1
    · simp [createReminderRule, harn, hev, h1, h]

/-- When the reminder target is configured, the event instant resolves,
and neither skip condition holds, `createReminderRule` attempts exactly
one `createSchedule` call, throwing exactly when the scheduler backend
rejects that rule name. -/
theorem createReminderRule_registers (w : World) (a eid rt n d t : String)
    (ts evTs : Int)
    (harn : w.reminderLambdaArn = some a)
    (hev : convertToUTCTimestamp w d t 0 = .ok evTs)
    (h1 : w.nowMs < ts) (h2 : ts < evTs) :
    createReminderRule w eid rt ts n d t =
      ([.createSchedule (eid ++ "-" ++ rt) (cronExpression ts) n d t rt],
        w.schedFails (eid ++ "-" ++ rt)) := by
  have h1' : ¬ ts ≤ w.nowMs := by omega
  have h2' : ¬ evTs ≤ ts := by omega
  simp [createReminderRule, harn, hev, h1', h2']

/-- Claim C1: with the reminder target configured and the event instant
resolving to a real number (the reachability conditions of every actual
call), a trigger is registered with the scheduler if and only if the
candidate fire instant is strictly after now and strictly before the
event instant; equality on either boundary means no registration,
whatever the offset name. -/
theorem registration_iff_strictly_between (w : World)
    (a eventId reminderType eventName eventDate eventTime : String)
    (ts evTs : Int)
    (harn : w.reminderLambdaArn = some a)
    (hev : convertToUTCTimestamp w eventDate eventTime 0 = .ok evTs) :
    ((createReminderRule w eventId reminderType ts
        eventName eventDate eventTime).1.any isCreateSchedule = true) ↔
      (w.nowMs < ts ∧ ts < evTs) := by
  simp only [createReminderRule, harn, hev]
  by_cases h1 : ts ≤ w.nowMs
  · simp [h1]
  · by_cases h2 : evTs ≤ ts
    · simp [h1, h2]
    · simp [h1, h2, isCreateSchedule]
      omega

/-- Witness for C1: the 2030-01-13T10:00:00Z candidate of a
2030-01-20T10:00:00Z event, with the clock at the epoch, is registered. -/
theorem registration_iff_strictly_between_witness :
    (createReminderRule baseWorld ("id") ("OneWeek") 1894528800000
        ("Board Meeting") ("2030-01-20") ("10:00")).1.any isCreateSchedule
      = true :=
  (registration_iff_strictly_between baseWorld ("arn") ("id") ("OneWeek")
      ("Board Meeting") ("2030-01-20") ("10:00") 1894528800000 1895133600000
      rfl rfl).mpr (by decide)

/-- Claim C5: for a well-formed date/time pair (one whose parse yields a
real instant), the candidates passed for `OneWeek`, `ThreeDays` and
`OneDay` are the event instant minus exactly 7, 3 and 1 days of real
elapsed time in milliseconds. -/
theorem offset_candidates_subtract_days (w : World) (d t : String)
    (ev : Int)
    (h : dateFromString w d t = .num ev) :
    convertToUTCTimestamp w d t 0 = .ok ev ∧
    convertToUTCTimestamp w d t 7 = .ok (ev - 7 * 86400000) ∧
    convertToUTCTimestamp w d t 3 = .ok (ev - 3 * 86400000) ∧
    convertToUTCTimestamp w d t 1 = .ok (ev - 1 * 86400000) := by
  simp [convertToUTCTimestamp, h]

/-- Witness for C5: the event 2030-01-20T10:00:00Z (UTC host) has
candidates 2030-01-13T10:00:00Z, 2030-01-17T10:00:00Z and
2030-01-19T10:00:00Z. -/
theorem offset_candidates_subtract_days_witness :
    convertToUTCTimestamp baseWorld ("2030-01-20") ("10:00") 7 =
        .ok 1894528800000 ∧
    convertToUTCTimestamp baseWorld ("2030-01-20") ("10:00") 3 =
        .ok 1894874400000 ∧
    convertToUTCTimestamp baseWorld ("2030-01-20") ("10:00") 1 =
        .ok 1895047200000 := by
  have h := offset_candidates_subtract_days baseWorld ("2030-01-20")
    ("10:00") 1895133600000 (by decide)
  refine ⟨?_, ?_, ?_⟩
  · rw [h.2.1]; norm_num
  · rw [h.2.2.1]; norm_num
  · rw [h.2.2.2]; norm_num

/-- Claim C6: the rendered cron expression reads the instant's UTC
minute, hour, day, month and year and discards seconds, so any two
instants within the same UTC minute render identically. -/
theorem cron_fields_minute_truncation (t1 t2 : Int)
    (h : t1 / 60000 = t2 / 60000) :
    cronExpression t1 = cronExpression t2 := by
  have hmin : getUTCMinutes t1 = getUTCMinutes t2 := by
    unfold getUTCMinutes; omega
  have hhr : getUTCHours t1 = getUTCHours t2 := by
    unfold getUTCHours; omega
  have hday : t1 / 86400000 = t2 / 86400000 := by omega
  simp only [cronExpression, getUTCDate, getUTCMonthPlusOne, getUTCFullYear,
    hmin, hhr, hday]

/-- Witness for C6: 2030-01-13T10:00:00Z and 2030-01-13T10:00:59Z render
to the same expression, whose fields are minute 0, hour 10, day 13,
month 1, year 2030. -/
theorem cron_fields_minute_truncation_witness :
    cronExpression 1894528800000 = cronExpression 1894528859000
      ∧ cronExpression 1894528800000 = ("cron(0 10 13 1 ? 2030)") :=
  ⟨cron_fields_minute_truncation 1894528800000 1894528859000 (by decide),
    by decide⟩

/-- Claim C7: a POST with any falsy combination of the three fields gets
the 400 response with no datastore write and no registration attempt. -/
theorem missing_field_no_effects (w : World) (en ed et : Option String)
    (h : (falsy en || falsy ed || falsy et) = true) :
    handler w ⟨.POST, en, ed, et⟩ = (⟨400, none⟩, []) := by
  simp [handler, h]

/-- Witness for C7: a request without `eventName` is rejected with 400
and an empty effect trace. -/
theorem missing_field_no_effects_witness :
    handler baseWorld ⟨.POST, none, some ("2030-06-10"), some ("09:00")⟩ =
      (⟨400, none⟩, []) :=
  missing_field_no_effects baseWorld none (some ("2030-06-10"))
    (some ("09:00")) (by decide)

/-- Counterexample to claim C9: for the malformed date with a thirteenth
month, no `cron(NaN ...)` expression ever reaches the scheduler — the
trace holds no `createSchedule` call at all and the request fails with
500, because `convertToUTCTimestamp` throws a `RangeError` at its
`toISOString` log (src/index.js line 193) before the validity filter is
ever consulted. -/
theorem nan_never_scheduled_counterexample :
    (handler baseWorld reqBadDate).1.statusCode = 500 ∧
    (handler baseWorld reqBadDate).2.any isCreateSchedule = false := by
  decide

/-- Claim C9 (amended): a malformed date/time pair parses to an invalid
date (`NaN` time value), and no input-validation error is raised for it
at the field check; but `convertToUTCTimestamp` then throws a
`RangeError` at its `toISOString` log during argument evaluation of the
first `createReminderRule` call, so the validity filter is never
consulted, no cron expression is handed to the scheduler, and the
handler's catch returns the 500 response after the record was persisted
and the immediate reminder invoked. -/
theorem nan_throws_before_filter (w : World) (a n d t : String)
    (harn : w.reminderLambdaArn = some a)
    (hput : w.putFails = false) (hinv : w.invokeFails = false)
    (hn : (n == "") = false) (hd : (d == "") = false)
    (ht : (t == "") = false)
    (hbad : dateFromString w d t = .nan) :
    convertToUTCTimestamp w d t 7 = .error () ∧
    handler w ⟨.POST, some n, some d, some t⟩ =
      (⟨500, none⟩,
        [.putItem w.freshId n d t, .lambdaInvoke n d t ("Immediate")]) := by
  have hc : convertToUTCTimestamp w d t 7 = .error () := by
    simp [convertToUTCTimestamp, hbad]
  refine ⟨hc, ?_⟩
  simp [handler, falsy, hn, hd, ht, hput, invokeImmediateReminder, harn,
    hinv, hc]

/-- Witness for the amended C9: the thirteenth-month submission throws
inside the conversion and yields 500 with only the put and the
invocation attempted. -/
theorem nan_throws_before_filter_witness :
    convertToUTCTimestamp baseWorld ("2030-13-01") ("10:00") 7 =
        .error () ∧
    handler baseWorld
        ⟨.POST, some ("Board Meeting"), some ("2030-13-01"), some ("10:00")⟩ =
      (⟨500, none⟩,
        [.putItem ("id") ("Board Meeting") ("2030-13-01") ("10:00"),
         .lambdaInvoke ("Board Meeting") ("2030-13-01") ("10:00")
           ("Immediate")]) :=
  nan_throws_before_filter baseWorld ("arn") ("Board Meeting") ("2030-13-01")
    ("10:00") rfl rfl rfl (by decide) (by decide) (by decide) (by decide)

/-- Claim C10: with `ReminderLambdaArn` unset, a valid POST still writes
the event record (the put succeeds), but the handler then throws before
any invocation or registration, returning the 500 response: the persisted
state is not rolled back and no reminder of any offset is attempted. -/
theorem missing_arn_after_persist (w : World) (n d t : String)
    (harn : w.reminderLambdaArn = none)
    (hput : w.putFails = false)
    (hn : (n == "") = false) (hd : (d == "") = false)
    (ht : (t == "") = false) :
    handler w ⟨.POST, some n, some d, some t⟩ =
      (⟨500, none⟩, [.putItem w.freshId n d t]) := by
  simp [handler, falsy, hn, hd, ht, hput, invokeImmediateReminder, harn]

/-- Witness for C10: the June submission against the ARN-less world. -/
theorem missing_arn_after_persist_witness :
    handler noArnWorld
        ⟨.POST, some ("Board Meeting"), some ("2030-06-10"), some ("09:00")⟩ =
      (⟨500, none⟩,
        [.putItem ("id") ("Board Meeting") ("2030-06-10") ("09:00")]) :=
  missing_arn_after_persist noArnWorld ("Board Meeting") ("2030-06-10")
    ("09:00") rfl rfl (by decide) (by decide) (by decide)

/-- Counterexample to claim C2: when the scheduler rejects the `OneWeek`
registration of a valid future submission, the handler answers 500 (the
whole request fails, nothing is aggregated into a success response) and
the `ThreeDays` and `OneDay` registrations are never attempted. -/
theorem sched_failure_counterexample :
    (handler failOneWeekWorld reqJune).1.statusCode = 500 ∧
    (handler failOneWeekWorld reqJune).2.any (scheduleNamed ("id-OneWeek"))
        = true ∧
    (handler failOneWeekWorld reqJune).2.any (scheduleNamed ("id-ThreeDays"))
        = false ∧
    (handler failOneWeekWorld reqJune).2.any (scheduleNamed ("id-OneDay"))
        = false := by decide

/-- Claim C2 (amended): whichever offset's scheduler registration fails
first — `OneWeek`, `ThreeDays` or `OneDay` — the error is rethrown out
of `createReminderRule`, the handler's top-level catch maps it to the
500 response, and the offsets after it are not attempted. -/
theorem sched_failure_aborts_request (w : World) (a n d t : String)
    (ts7 ts3 ts1 : Int)
    (harn : w.reminderLambdaArn = some a)
    (hput : w.putFails = false) (hinv : w.invokeFails = false)
    (hn : (n == "") = false) (hd : (d == "") = false)
    (ht : (t == "") = false)
    (h7 : convertToUTCTimestamp w d t 7 = .ok ts7)
    (h3 : convertToUTCTimestamp w d t 3 = .ok ts3)
    (h1 : convertToUTCTimestamp w d t 1 = .ok ts1) :
    (w.nowMs < ts7 → w.schedFails (w.freshId ++ "-" ++ ("OneWeek")) = true →
      handler w ⟨.POST, some n, some d, some t⟩ =
        (⟨500, none⟩,
          [.putItem w.freshId n d t, .lambdaInvoke n d t ("Immediate"),
           .createSchedule (w.freshId ++ "-" ++ ("OneWeek"))
             (cronExpression ts7) n d t ("OneWeek")])) ∧
    ((w.nowMs < ts7 →
        w.schedFails (w.freshId ++ "-" ++ ("OneWeek")) = false) →
      w.nowMs < ts3 →
      w.schedFails (w.freshId ++ "-" ++ ("ThreeDays")) = true →
      handler w ⟨.POST, some n, some d, some t⟩ =
        (⟨500, none⟩,
          Effect.putItem w.freshId n d t ::
            Effect.lambdaInvoke n d t ("Immediate") ::
            (createReminderRule w w.freshId ("OneWeek") ts7 n d t).1 ++
            [.createSchedule (w.freshId ++ "-" ++ ("ThreeDays"))
              (cronExpression ts3) n d t ("ThreeDays")])) ∧
    ((w.nowMs < ts7 →
        w.schedFails (w.freshId ++ "-" ++ ("OneWeek")) = false) →
      (w.nowMs < ts3 →
        w.schedFails (w.freshId ++ "-" ++ ("ThreeDays")) = false) →
      w.nowMs < ts1 →
      w.schedFails (w.freshId ++ "-" ++ ("OneDay")) = true →
      handler w ⟨.POST, some n, some d, some t⟩ =
        (⟨500, none⟩,
          Effect.putItem w.freshId n d t ::
            Effect.lambdaInvoke n d t ("Immediate") ::
            (createReminderRule w w.freshId ("OneWeek") ts7 n d t).1 ++
            (createReminderRule w w.freshId ("ThreeDays") ts3 n d t).1 ++
            [.createSchedule (w.freshId ++ "-" ++ ("OneDay"))
              (cronExpression ts1) n d t ("OneDay")])) := by
  have hp : dateFromString w d t = .num (ts7 + 604800000) := by
    unfold convertToUTCTimestamp at h7
    cases hdf : dateFromString w d t with
    | num p =>
      rw [hdf] at h7
      simp only [Except.ok.injEq] at h7
      simp only [JSNum.num.injEq]
      omega
    | nan =>
      rw [hdf] at h7
      simp at h7
  have hev : convertToUTCTimestamp w d t 0 = .ok (ts7 + 604800000) := by
    simp [convertToUTCTimestamp, hp]
  have hts3 : ts3 = ts7 + 4 * 86400000 := by
    unfold convertToUTCTimestamp at h3
    rw [hp] at h3
    simp only [Except.ok.injEq] at h3
    omega
  have hts1 : ts1 = ts7 + 6 * 86400000 := by
    unfold convertToUTCTimestamp at h1
    rw [hp] at h1
    simp only [Except.ok.injEq] at h1
    omega
  have E2 : ∀ (rt : String) (ts : Int), ts < ts7 + 604800000 →
      (w.nowMs < ts → w.schedFails (w.freshId ++ "-" ++ rt) = false) →
      ∃ l, createReminderRule w w.freshId rt ts n d t = (l, false) := by
    intro rt ts hlt hok
    by_cases hc : w.nowMs < ts
    · have er := createReminderRule_registers w a w.freshId rt n d t ts
        (ts7 + 604800000) harn hev hc hlt
      rw [hok hc] at er
      exact ⟨_, er⟩
    · exact ⟨[], createReminderRule_skips w a w.freshId rt n d t ts
        (ts7 + 604800000) harn hev (Or.inl (by omega))⟩
  refine ⟨?_, ?_, ?_⟩
  · intro hA1 hA2
    have e1 := createReminderRule_registers w a w.freshId ("OneWeek") n d t
      ts7 (ts7 + 604800000) harn hev hA1 (by omega)
    rw [hA2] at e1
    simp [handler, falsy, hn, hd, ht, hput, invokeImmediateReminder, harn,
      hinv, h7, e1]
  · intro hB0 hB1 hB2
    obtain ⟨l1, e1⟩ := E2 ("OneWeek") ts7 (by omega) hB0
    have e2 := createReminderRule_registers w a w.freshId ("ThreeDays") n d t
      ts3 (ts7 + 604800000) harn hev hB1 (by omega)
    rw [hB2] at e2
    simp [handler, falsy, hn, hd, ht, hput, invokeImmediateReminder, harn,
      hinv, h7, h3, e1, e2]
  · intro hC0 hC3 hC1 hC2
    obtain ⟨l1, e1⟩ := E2 ("OneWeek") ts7 (by omega) hC0
    obtain ⟨l2, e2⟩ := E2 ("ThreeDays") ts3 (by omega) hC3
    have e3 := createReminderRule_registers w a w.freshId ("OneDay") n d t
      ts1 (ts7 + 604800000) harn hev hC1 (by omega)
    rw [hC2] at e3
    simp [handler, falsy, hn, hd, ht, hput, invokeImmediateReminder, harn,
      hinv, h7, h3, h1, e1, e2, e3]

/-- Witness for the amended C2: with the scheduler rejecting exactly the
id-ThreeDays rule, the June submission fails with 500 after the OneWeek
schedule was created, and OneDay is never attempted; with it rejecting
exactly id-OneWeek, neither later offset is attempted. -/
theorem sched_failure_aborts_request_witness :
    handler failThreeDaysWorld
        ⟨.POST, some ("Board Meeting"), some ("2030-06-10"), some ("09:00")⟩ =
      (⟨500, none⟩,
        [.putItem ("id") ("Board Meeting") ("2030-06-10") ("09:00"),
         .lambdaInvoke ("Board Meeting") ("2030-06-10") ("09:00")
           ("Immediate"),
         .createSchedule ("id-OneWeek") (cronExpression 1906707600000)
           ("Board Meeting") ("2030-06-10") ("09:00") ("OneWeek"),
         .createSchedule ("id-ThreeDays") (cronExpression 1907053200000)
           ("Board Meeting") ("2030-06-10") ("09:00") ("ThreeDays")]) ∧
    handler failOneWeekWorld
        ⟨.POST, some ("Board Meeting"), some ("2030-06-10"), some ("09:00")⟩ =
      (⟨500, none⟩,
        [.putItem ("id") ("Board Meeting") ("2030-06-10") ("09:00"),
         .lambdaInvoke ("Board Meeting") ("2030-06-10") ("09:00")
           ("Immediate"),
         .createSchedule ("id-OneWeek") (cronExpression 1906707600000)
           ("Board Meeting") ("2030-06-10") ("09:00") ("OneWeek")]) := by
  constructor
  · have h := (sched_failure_aborts_request failThreeDaysWorld ("arn")
      ("Board Meeting") ("2030-06-10") ("09:00") 1906707600000 1907053200000
      1907226000000 rfl rfl rfl (by decide) (by decide) (by decide) rfl rfl
      rfl).2.1 (fun _ => by decide) (by decide) (by decide)
    rw [h]
    decide
  · have h := (sched_failure_aborts_request failOneWeekWorld ("arn")
      ("Board Meeting") ("2030-06-10") ("09:00") 1906707600000 1907053200000
      1907226000000 rfl rfl rfl (by decide) (by decide) (by decide) rfl rfl
      rfl).1 (by decide) (by decide)
    rw [h]
    decide

/-- Counterexample to claim C3: when the asynchronous immediate
invocation rejects after a successful persistence, the handler does not
return the success response with the event identifier: it answers 500
with no identifier. -/
theorem dispatch_failure_counterexample :
    (handler invokeFailWorld reqJune).1 = ⟨500, none⟩ := by decide

/-- Claim C3 (amended): with the target configured and persistence
succeeding, a rejection of the immediate dispatch is rethrown: the
handler returns the 500 response without the event identifier, and no
schedule registration is attempted. -/
theorem dispatch_failure_fails_submission (w : World) (a n d t : String)
    (harn : w.reminderLambdaArn = some a)
    (hput : w.putFails = false) (hinv : w.invokeFails = true)
    (hn : (n == "") = false) (hd : (d == "") = false)
    (ht : (t == "") = false) :
    handler w ⟨.POST, some n, some d, some t⟩ =
      (⟨500, none⟩,
        [.putItem w.freshId n d t, .lambdaInvoke n d t ("Immediate")]) := by
  simp [handler, falsy, hn, hd, ht, hput, invokeImmediateReminder, harn, hinv]

/-- Witness for the amended C3: the June submission against the world
whose Lambda invocation rejects. -/
theorem dispatch_failure_fails_submission_witness :
    handler invokeFailWorld
        ⟨.POST, some ("Board Meeting"), some ("2030-06-10"), some ("09:00")⟩ =
      (⟨500, none⟩,
        [.putItem ("id") ("Board Meeting") ("2030-06-10") ("09:00"),
         .lambdaInvoke ("Board Meeting") ("2030-06-10") ("09:00")
           ("Immediate")]) :=
  dispatch_failure_fails_submission invokeFailWorld ("arn") ("Board Meeting")
    ("2030-06-10") ("09:00") rfl rfl rfl (by decide) (by decide) (by decide)

/-- Claim C4: on a valid POST the datastore write is the first external
call of the trace, and when it rejects the handler returns the 500
response with the put as the only attempted call, so no trigger
registration is ever attempted. -/
theorem persist_before_registration (w : World) (n d t : String)
    (hn : (n == "") = false) (hd : (d == "") = false)
    (ht : (t == "") = false) :
    (handler w ⟨.POST, some n, some d, some t⟩).2.head? =
        some (.putItem w.freshId n d t) ∧
    (w.putFails = true →
      handler w ⟨.POST, some n, some d, some t⟩ =
        (⟨500, none⟩, [.putItem w.freshId n d t])) := by
  constructor
  · simp only [handler, falsy, hn, hd, ht, Bool.or_self, Option.getD_some]
    repeat' split
    all_goals simp_all
  · intro hp
    simp [handler, falsy, hn, hd, ht, hp]

/-- Witness for C4: the June submission against the world whose DynamoDB
put rejects. -/
theorem persist_before_registration_witness :
    (handler putFailWorld ⟨.POST, some ("Board Meeting"),
        some ("2030-06-10"), some ("09:00")⟩).2.head? =
      some (.putItem ("id") ("Board Meeting") ("2030-06-10") ("09:00")) ∧
    handler putFailWorld ⟨.POST, some ("Board Meeting"), some ("2030-06-10"),
        some ("09:00")⟩ =
      (⟨500, none⟩,
        [.putItem ("id") ("Board Meeting") ("2030-06-10") ("09:00")]) := by
  have h := persist_before_registration putFailWorld ("Board Meeting")
    ("2030-06-10") ("09:00") (by decide) (by decide) (by decide)
  exact ⟨h.1, h.2 rfl⟩

/-- Claim C8: for a well-formed submission (every candidate instant
resolves) with persistence and dispatch succeeding, when each offset is
either rejected by the validity filter or accepted by the scheduler, the
handler returns 200 with the event identifier; a rejected offset
contributes no `createSchedule` call, and with all three rejected the
trace holds only the put and the immediate invocation. -/
theorem filter_rejection_nonfatal (w : World) (a n d t : String)
    (evTs ts7 ts3 ts1 : Int)
    (harn : w.reminderLambdaArn = some a)
    (hput : w.putFails = false) (hinv : w.invokeFails = false)
    (hn : (n == "") = false) (hd : (d == "") = false)
    (ht : (t == "") = false)
    (hev : convertToUTCTimestamp w d t 0 = .ok evTs)
    (h7 : convertToUTCTimestamp w d t 7 = .ok ts7)
    (h3 : convertToUTCTimestamp w d t 3 = .ok ts3)
    (h1 : convertToUTCTimestamp w d t 1 = .ok ts1)
    (c7 : (ts7 ≤ w.nowMs ∨ evTs ≤ ts7) ∨
      w.schedFails (w.freshId ++ "-" ++ ("OneWeek")) = false)
    (c3 : (ts3 ≤ w.nowMs ∨ evTs ≤ ts3) ∨
      w.schedFails (w.freshId ++ "-" ++ ("ThreeDays")) = false)
    (c1 : (ts1 ≤ w.nowMs ∨ evTs ≤ ts1) ∨
      w.schedFails (w.freshId ++ "-" ++ ("OneDay")) = false) :
    (handler w ⟨.POST, some n, some d, some t⟩).1 = ⟨200, some w.freshId⟩ ∧
    ((ts7 ≤ w.nowMs ∨ evTs ≤ ts7) →
      (createReminderRule w w.freshId ("OneWeek") ts7 n d t).1 = []) ∧
    ((ts3 ≤ w.nowMs ∨ evTs ≤ ts3) →
      (createReminderRule w w.freshId ("ThreeDays") ts3 n d t).1 = []) ∧
    ((ts1 ≤ w.nowMs ∨ evTs ≤ ts1) →
      (createReminderRule w w.freshId ("OneDay") ts1 n d t).1 = []) ∧
    ((ts7 ≤ w.nowMs ∨ evTs ≤ ts7) → (ts3 ≤ w.nowMs ∨ evTs ≤ ts3) →
      (ts1 ≤ w.nowMs ∨ evTs ≤ ts1) →
      (handler w ⟨.POST, some n, some d, some t⟩).2 =
        [.putItem w.freshId n d t, .lambdaInvoke n d t ("Immediate")]) := by
  have E : ∀ (rt : String) (ts : Int),
      ((ts ≤ w.nowMs ∨ evTs ≤ ts) ∨
        w.schedFails (w.freshId ++ "-" ++ rt) = false) →
      ∃ l, createReminderRule w w.freshId rt ts n d t = (l, false) ∧
        ((ts ≤ w.nowMs ∨ evTs ≤ ts) → l = []) := by
    intro rt ts hc
    by_cases hrej : ts ≤ w.nowMs ∨ evTs ≤ ts
    · exact ⟨[], createReminderRule_skips w a w.freshId rt n d t ts evTs
        harn hev hrej, fun _ => rfl⟩
    · rcases hc with hc | hc
      · exact absurd hc hrej
      · refine ⟨[.createSchedule (w.freshId ++ "-" ++ rt) (cronExpression ts)
          n d t rt], ?_, fun hx => absurd hx hrej⟩
        rw [createReminderRule_registers w a w.freshId rt n d t ts evTs
          harn hev (by omega) (by omega), hc]
  obtain ⟨l1, e1, r1⟩ := E ("OneWeek") ts7 c7
  obtain ⟨l2, e2, r2⟩ := E ("ThreeDays") ts3 c3
  obtain ⟨l3, e3, r3⟩ := E ("OneDay") ts1 c1
  refine ⟨?_, ?_, ?_, ?_, ?_⟩
  · simp [handler, falsy, hn, hd, ht, hput, invokeImmediateReminder, harn,
      hinv, h7, h3, h1, e1, e2, e3]
  · intro hx
    rw [e1]
    exact r1 hx
  · intro hx
    rw [e2]
    exact r2 hx
  · intro hx
    rw [e3]
    exact r3 hx
  · intro hx7 hx3 hx1
    simp [handler, falsy, hn, hd, ht, hput, invokeImmediateReminder, harn,
      hinv, h7, h3, h1, e1, e2, e3, r1 hx7, r2 hx3, r3 hx1]

/-- Witness for C8: the June submission twelve hours before the event:
all three candidates are in the past, nothing is registered, and the
submission still succeeds with the event identifier. -/
theorem filter_rejection_nonfatal_witness :
    (handler lateWorld ⟨.POST, some ("Board Meeting"), some ("2030-06-10"),
        some ("09:00")⟩).1 = ⟨200, some ("id")⟩ ∧
    (handler lateWorld ⟨.POST, some ("Board Meeting"), some ("2030-06-10"),
        some ("09:00")⟩).2 =
      [.putItem ("id") ("Board Meeting") ("2030-06-10") ("09:00"),
       .lambdaInvoke ("Board Meeting") ("2030-06-10") ("09:00")
         ("Immediate")] := by
  have h := filter_rejection_nonfatal lateWorld ("arn") ("Board Meeting")
    ("2030-06-10") ("09:00") 1907312400000 1906707600000 1907053200000
    1907226000000 rfl rfl rfl (by decide) (by decide) (by decide) rfl rfl
    rfl rfl (Or.inl (Or.inl (by decide))) (Or.inl (Or.inl (by decide)))
    (Or.inl (Or.inl (by decide)))
  exact ⟨h.1, h.2.2.2.2 (Or.inl (by decide)) (Or.inl (by decide))
    (Or.inl (by decide))⟩

end BELLAddEvent
